import Mathlib

/-!
Shallow embedding of the investigator-assistant application (src/app.py) for
verification of its natural-language specification.

Modelling conventions:
* JSON values are the inductive `Json` below; Python dicts are association
  lists in insertion order (as produced by `json.loads`).
* The external `json` module is abstracted: a `Payload` carries the raw
  response text (after `.strip()`) together with the outcome of `json.loads`
  on it (`Except.ok` a value, or `Except.error` the `JSONDecodeError` text).
* The remote chat-completion backend is a function from the constructed
  request to an outcome: either a returned payload or a raised exception.
* UI and logging side effects (`st.error`, `st.warning`, `print`,
  `logger.error`) are modelled as an emitted list of `Diagnostic`s.
* A Python function that can raise to its caller returns `Except String`;
  the error value models the propagated exception text.
-/

namespace Investig

/-- JSON values; objects keep key order, numbers are modelled as integers
(no claim depends on non-integral numerics). -/
inductive Json where
  | null : Json
  | bool (b : Bool) : Json
  | num (n : Int) : Json
  | str (s : String) : Json
  | arr (elems : List Json) : Json
  | obj (fields : List (String × Json)) : Json

/-- Diagnostics emitted through the UI and the loggers: `error` models
`st.error`, `warning` models `st.warning`, `log` models `print`, and
`logError` models `logger.error`. -/
inductive Diagnostic where
  | error (msg : String) : Diagnostic
  | warning (msg : String) : Diagnostic
  | log (msg : String) : Diagnostic
  | logError (msg : String) : Diagnostic
deriving DecidableEq

/-- The content string of a chat-completion response after `.strip()`,
paired with the abstracted outcome of `json.loads` on it. -/
structure Payload where
  raw : String
  parse : Except String Json

/-- A chat-completion request as built by `compare_testimonies`:
model name, the two messages, temperature (in tenths, the source uses the
float 0.3) and whether `response_format = json_object` was requested. -/
structure ChatRequest where
  model : String
  systemMsg : String
  userMsg : String
  temperatureTenths : Nat
  responseFormatJsonObject : Bool

/-- Outcome of `client.chat.completions.create`: either the (stripped)
content payload, or a raised exception with its message. -/
inductive ChatOutcome where
  | ok (payload : Payload) : ChatOutcome
  | raised (msg : String) : ChatOutcome

/-- The remote service, modelled as a deterministic function of the request. -/
def Backend : Type := ChatRequest → ChatOutcome

/-- System message of `compare_testimonies` (src/app.py line 346). -/
def compareSystemMsg : String :=
  "Вы опытный следователь, точно извлекающий противоречия и цитаты из показаний в формате JSON."

/-- User prompt of `compare_testimonies` (src/app.py lines 321-341); both
input texts are embedded verbatim, party 1 before party 2. -/
def buildComparePrompt (text1 text2 : String) : String :=
  "Вы следователь, сопоставляющий показания для выявления противоречий. " ++
  "Сравните следующие два показания и определите существенные противоречия между ними. " ++
  "Для каждого найденного противоречия предоставьте:\n" ++
  "1. Краткое описание сути противоречия.\n" ++
  "2. Точную цитату из показаний Лица №1, иллюстрирующую это противоречие.\n" ++
  "3. Точную цитату из показаний Лица №2, иллюстрирующую это противоречие.\n" ++
  "4. Оценку значимости противоречия (например, Низкая, Средняя, Высокая).\n\n" ++
  "Ответ должен быть представлен СТРОГО в формате JSON списка объектов, где каждый объект имеет ключи: " ++
  "\x27description\x27 (строка), \x27quote1\x27 (строка), \x27quote2\x27 (строка), \x27significance\x27 (строка).\n" ++
  "Пример объекта JSON:\n" ++
  "\x7b\n" ++
  "  \"description\": \"Время ухода из дома\",\n" ++
  "  \"quote1\": \"Я ушел из дома около 9 утра.\",\n" ++
  "  \"quote2\": \"Он вышел не раньше 11 часов.\",\n" ++
  "  \"significance\": \"Средняя\"\n" ++
  "\x7d\n\n" ++
  "Если противоречий не найдено, верните пустой JSON список [].\n\n" ++
  "Показания лица №1:\n" ++ text1 ++ "\n\n" ++
  "Показания лица №2:\n" ++ text2

/-- The full request sent by `compare_testimonies` (src/app.py lines 343-351). -/
def compareRequest (text1 text2 : String) : ChatRequest :=
  { model := "gpt-4o-mini"
    systemMsg := compareSystemMsg
    userMsg := buildComparePrompt text1 text2
    temperatureTenths := 3
    responseFormatJsonObject := true }

/-- First list-valued entry of a JSON object in key order, with its key;
models the `for key, value in contradictions_list.items()` loop of
src/app.py lines 359-362. -/
def firstListEntry : List (String × Json) → Option (String × List Json)
  | [] => none
  | (k, Json.arr l) :: _ => some (k, l)
  | _ :: rest => firstListEntry rest

/-- Salvage warning shown when a dict-wrapped list is used
(src/app.py line 361). -/
def salvageWarning (key : String) : String :=
  "Модель вернула JSON-объект вместо списка. Использую список из ключа \x27" ++ key ++ "\x27."

/-- Error shown when the JSON is valid but neither a list nor a dict
holding a list (src/app.py line 363). -/
def notListErrorMsg : String :=
  "Модель вернула корректный JSON, но не в формате списка."

/-- Embedding of `compare_testimonies` (src/app.py lines 317-373).
Returns the ComparisonResult (`none` models the `return None` of the outer
exception handler, `some l` a returned list) together with the emitted
diagnostics, in emission order. -/
def compare_testimonies (b : Backend) (text1 text2 : String) :
    Option (List Json) × List Diagnostic :=
  match b (compareRequest text1 text2) with
  | ChatOutcome.raised msg =>
      (none, [Diagnostic.error ("Ошибка при сравнении показаний: " ++ msg)])
  | ChatOutcome.ok payload =>
      match payload.parse with
      | Except.error e =>
          (some [],
           [Diagnostic.error ("Ошибка декодирования JSON ответа от OpenAI: " ++ e),
            Diagnostic.warning "Модель не вернула валидный JSON. Противоречия не будут извлечены.",
            Diagnostic.log ("Невалидный JSON от OpenAI: " ++ payload.raw)])
      | Except.ok j =>
          match j with
          | Json.arr l => (some l, [])
          | Json.obj kvs =>
              match firstListEntry kvs with
              | some kl => (some kl.2, [Diagnostic.warning (salvageWarning kl.1)])
              | none =>
                  (some [],
                   [Diagnostic.error notListErrorMsg,
                    Diagnostic.log ("Неожиданный JSON от OpenAI: " ++ payload.raw)])
          | _ =>
              (some [],
               [Diagnostic.error notListErrorMsg,
                Diagnostic.log ("Неожиданный JSON от OpenAI: " ++ payload.raw)])

/-- Local mutable state visible to the module: the flat-file history store
and the list of diagnostics rendered so far. `compare_testimonies` touches
neither store; it only appends diagnostics. -/
structure AppState where
  storage : List (String × Json)
  uiLog : List Diagnostic

/-- One invocation of `compare_testimonies` as a transition on `AppState`:
the result is returned and the emitted diagnostics are appended to the UI
log; nothing else in the state is touched (src/app.py lines 317-373 contain
no write to storage or to any other local state). -/
def runCompare (s : AppState) (b : Backend) (t1 t2 : String) :
    Option (List Json) × AppState :=
  ((compare_testimonies b t1 t2).1,
   { storage := s.storage, uiLog := s.uiLog ++ (compare_testimonies b t1 t2).2 })

/-- The local file system, as the set of existing paths. -/
structure FS where
  files : List String

/-- Models `os.path.exists`. -/
def FS.exists (fs : FS) (p : String) : Bool :=
  decide (p ∈ fs.files)

/-- Models `os.remove`. -/
def FS.remove (fs : FS) (p : String) : FS :=
  ⟨fs.files.filter (fun q => decide (q ≠ p))⟩

/-- The transcription endpoint: from audio path and language to either the
transcript text or a raised exception message. -/
def TranscribeBackend : Type := String → String → Except String String

/-- Python repr of the `FileNotFoundError` raised by `open` on a missing
path. -/
def fileNotFoundMsg (path : String) : String :=
  "[Errno 2] No such file or directory: \x27" ++ path ++ "\x27"

/-- Embedding of `transcribe_audio` (src/app.py lines 277-292): open the
file (raising if absent), call the transcription endpoint, return the text;
any exception is caught and reported via `st.error` with `None` returned;
the `finally` block removes the file when it exists, on every path. -/
def transcribe_audio (fs : FS) (client : TranscribeBackend)
    (audio_file : String) (language : String) :
    Option String × List Diagnostic × FS :=
  let attempt : Option String × List Diagnostic :=
    if fs.exists audio_file then
      match client audio_file language with
      | Except.ok text => (some text, [])
      | Except.error e =>
          (none, [Diagnostic.error ("Ошибка при транскрибации: " ++ e)])
    else
      (none, [Diagnostic.error ("Ошибка при транскрибации: " ++ fileNotFoundMsg audio_file)])
  let fs2 := if fs.exists audio_file then fs.remove audio_file else fs
  (attempt.1, attempt.2, fs2)

/-- Dict lookup in an association list (Python dicts have unique keys; the
first match is the dict semantics). -/
def lookupField (key : String) : List (String × Json) → Option Json
  | [] => none
  | (k, v) :: rest => if k = key then some v else lookupField key rest

/-- Python type name of a JSON value, for exception texts. -/
def pyTypeName : Json → String
  | Json.null => "NoneType"
  | Json.bool _ => "bool"
  | Json.num _ => "int"
  | Json.str _ => "str"
  | Json.arr _ => "list"
  | Json.obj _ => "dict"

/-- Sort key of one record, as computed by the lambda
`x.get(\x27generatedDate\x27, \x27\x27)` in src/app.py line 176: on a dict,
the field value (default the empty string); on any non-dict record the
attribute access `.get` raises `AttributeError`. -/
inductive PyKey where
  | str (s : String) : PyKey
  | nonStr (v : Json) : PyKey

/-- Key extraction for `sorted`; raises on non-dict records. -/
def recordDateKey : Json → Except String PyKey
  | Json.obj kvs =>
      Except.ok (match lookupField "generatedDate" kvs with
        | none => PyKey.str ""
        | some (Json.str s) => PyKey.str s
        | some v => PyKey.nonStr v)
  | j =>
      Except.error ("AttributeError: \x27" ++ pyTypeName j ++
        "\x27 object has no attribute \x27get\x27")

/-- Total string view of a key, for specification statements: the date
string, or the empty string for a missing field (matches `recordDateKey`
on well-formed records). -/
def dateKeyStr : Json → String
  | Json.obj kvs =>
      match lookupField "generatedDate" kvs with
      | some (Json.str s) => s
      | _ => ""
  | _ => ""

/-- Python `<=` on sort keys. String pairs compare lexicographically by
code point (Lean's `String` order). Any comparison involving a non-string
value is modelled as raising `TypeError`; CPython would order some such
pairs (e.g. two numbers), but no record written by this application and no
claim concerns such keys. -/
def pyLe : PyKey → PyKey → Except String Bool
  | PyKey.str a, PyKey.str b => Except.ok (decide (a ≤ b))
  | _, _ => Except.error "TypeError: unorderable sort key types"

/-- Stable descending insertion, modelling the element order produced by
`sorted(..., reverse=True)`: the inserted element is placed before the
first element whose key is less than or equal to its own, so ties keep
their original relative order (CPython timsort with `reverse=True` is
stable in exactly this sense). A raising comparison aborts the sort. -/
def insertDesc (x : Json × PyKey) :
    List (Json × PyKey) → Except String (List (Json × PyKey))
  | [] => Except.ok [x]
  | y :: ys =>
      match pyLe y.2 x.2 with
      | Except.error e => Except.error e
      | Except.ok true => Except.ok (x :: y :: ys)
      | Except.ok false =>
          match insertDesc x ys with
          | Except.error e => Except.error e
          | Except.ok rest => Except.ok (y :: rest)

/-- Stable descending sort of keyed records. -/
def sortDesc : List (Json × PyKey) → Except String (List (Json × PyKey))
  | [] => Except.ok []
  | x :: xs =>
      match sortDesc xs with
      | Except.error e => Except.error e
      | Except.ok rest => insertDesc x rest

/-- CPython `sorted(key=...)` computes every key up front, before any
comparison; a raising key extraction aborts even a one-element sort. -/
def computeKeys : List Json → Except String (List (Json × PyKey))
  | [] => Except.ok []
  | j :: js =>
      match recordDateKey j with
      | Except.error e => Except.error e
      | Except.ok k =>
          match computeKeys js with
          | Except.error e => Except.error e
          | Except.ok rest => Except.ok ((j, k) :: rest)

/-- Embedding of `sorted(history, key=lambda x: x.get(\x27generatedDate\x27,
\x27\x27), reverse=True)` (src/app.py line 176). -/
def pySortedByDateDesc (records : List Json) : Except String (List Json) :=
  match computeKeys records with
  | Except.error e => Except.error e
  | Except.ok keyed =>
      match sortDesc keyed with
      | Except.error e => Except.error e
      | Except.ok sortedKeyed => Except.ok (sortedKeyed.map Prod.fst)

/-- State of one module directory: absent, or a listing (in `os.listdir`
order) of file names paired with the outcome of opening and `json.load`-ing
each file (`Except.error` models an unreadable file or invalid JSON). -/
inductive DirState where
  | absent : DirState
  | present (files : List (String × Except String Json)) : DirState

/-- Models Python `str.endswith`, over the character sequences. -/
def strEndsWith (name suffix : String) : Bool :=
  suffix.data.isSuffixOf name.data

/-- The files considered by `load_history`: names ending in `.json`
(src/app.py line 165). -/
def jsonFilesOf (files : List (String × Except String Json)) :
    List (String × Except String Json) :=
  files.filter (fun f => strEndsWith f.1 ".json")

/-- Records successfully loaded, in listing order; failing files are
skipped (src/app.py lines 168-173). -/
def goodRecords (files : List (String × Except String Json)) : List Json :=
  (jsonFilesOf files).filterMap (fun f => f.2.toOption)

/-- The `logger.error` diagnostics emitted for failing files, in listing
order (src/app.py line 173). -/
def errorLogs (files : List (String × Except String Json)) : List Diagnostic :=
  (jsonFilesOf files).filterMap (fun f =>
    match f.2 with
    | Except.error e =>
        some (Diagnostic.logError ("Error loading history file " ++ f.1 ++ ": " ++ e))
    | Except.ok _ => none)

/-- Embedding of `load_history` (src/app.py lines 159-176): empty list for
an absent directory; otherwise each `.json` file is loaded, failures are
skipped with a logged error, and the loaded records are returned sorted by
`generatedDate` descending. The final `sorted` call itself can raise (it is
outside any `try`), which the `Except.error` result models. -/
def load_history (d : DirState) : Except String (List Json) × List Diagnostic :=
  match d with
  | DirState.absent => (Except.ok [], [])
  | DirState.present files => (pySortedByDateDesc (goodRecords files), errorLogs files)

/-- A record on which the sort key lambda of `load_history` is exact: a
JSON object whose `generatedDate` field, when present, is a string. Every
record this application writes satisfies this. -/
def wellFormedRecord : Json → Bool
  | Json.obj kvs =>
      match lookupField "generatedDate" kvs with
      | none => true
      | some (Json.str _) => true
      | some _ => false
  | _ => false

/-- A 4-field contradiction object in the sense of the spec data model:
a JSON object with exactly four fields, with string values under the keys
description, quote1, quote2 and significance. -/
def hasStrField (kvs : List (String × Json)) (key : String) : Bool :=
  kvs.any (fun kv =>
    kv.1 = key && (match kv.2 with | Json.str _ => true | _ => false))

/-- Whether a JSON value is a well-shaped contradiction record. The
extractor never evaluates this predicate: it is spec vocabulary. -/
def isContradictionObj : Json → Bool
  | Json.obj kvs =>
      hasStrField kvs "description" && hasStrField kvs "quote1" &&
      hasStrField kvs "quote2" && hasStrField kvs "significance" &&
      kvs.length == 4
  | _ => false

/-- The contradiction object of spec scenario 1. -/
def sampleContradiction : Json :=
  Json.obj
    [("description", Json.str "Время ухода"),
     ("quote1", Json.str "Я ушел в 9 утра"),
     ("quote2", Json.str "Он вышел не раньше 11"),
     ("significance", Json.str "Средняя")]

/-- String view of a sort key; agrees with the Python key on the
well-formed region (non-string keys only occur where no claim applies). -/
def keyStr : PyKey → String
  | PyKey.str s => s
  | PyKey.nonStr _ => ""

/-- All keys of a keyed record list are strings (the region where the
Python comparisons are total). -/
def AllStr (l : List (Json × PyKey)) : Prop :=
  ∀ p ∈ l, ∃ s, p.2 = PyKey.str s

/-- C1: For every upstream response whose payload parses as a JSON list,
`compare_testimonies` returns that parsed list unchanged, in order, with no
diagnostics (the identity law of the extractor). -/
theorem compare_testimonies_list_identity (b : Backend) (t1 t2 : String)
    (p : Payload) (l : List Json)
    (hb : b (compareRequest t1 t2) = ChatOutcome.ok p)
    (hp : p.parse = Except.ok (Json.arr l)) :
    compare_testimonies b t1 t2 = (some l, []) := by
  simp [compare_testimonies, hb, hp]

/-- Witness for C1 at spec scenario 1: a stub backend returning exactly the
single sample contradiction yields that list unchanged. -/
theorem compare_testimonies_list_identity_witness :
    compare_testimonies
      (fun _ => ChatOutcome.ok ⟨"stub", Except.ok (Json.arr [sampleContradiction])⟩)
      "Я ушел в 9 утра" "Он вышел не раньше 11"
      = (some [sampleContradiction], []) :=
  compare_testimonies_list_identity _ _ _ _ _ rfl rfl

/-- C2: For every upstream response parsing as a JSON object with at least
one list-valued entry, `compare_testimonies` returns the first list-valued
entry in key order and emits exactly one non-fatal salvage warning. -/
theorem compare_testimonies_salvage (b : Backend) (t1 t2 : String)
    (p : Payload) (kvs : List (String × Json)) (key : String) (l : List Json)
    (hb : b (compareRequest t1 t2) = ChatOutcome.ok p)
    (hp : p.parse = Except.ok (Json.obj kvs))
    (hf : firstListEntry kvs = some (key, l)) :
    compare_testimonies b t1 t2 = (some l, [Diagnostic.warning (salvageWarning key)]) := by
  simp [compare_testimonies, hb, hp, hf]

/-- Witness for C2: an object with exactly one list-valued field (after a
non-list field) yields that nested list and one salvage warning. -/
theorem compare_testimonies_salvage_witness :
    compare_testimonies
      (fun _ => ChatOutcome.ok
        ⟨"stub", Except.ok (Json.obj
          [("note", Json.str "ok"),
           ("contradictions", Json.arr [sampleContradiction])])⟩)
      "t1" "t2"
      = (some [sampleContradiction],
         [Diagnostic.warning (salvageWarning "contradictions")]) :=
  compare_testimonies_salvage _ _ _ _ _ _ _ rfl rfl rfl

/-- C3: For every upstream response parsing as a JSON object with no
list-valued entry, `compare_testimonies` returns the empty list (not the
failure signal) and emits an error diagnostic plus a raw-payload log; no
exception escapes (the embedding is total and yields exactly this pair). -/
theorem compare_testimonies_dict_no_list (b : Backend) (t1 t2 : String)
    (p : Payload) (kvs : List (String × Json))
    (hb : b (compareRequest t1 t2) = ChatOutcome.ok p)
    (hp : p.parse = Except.ok (Json.obj kvs))
    (hf : firstListEntry kvs = none) :
    compare_testimonies b t1 t2 =
      (some [],
       [Diagnostic.error notListErrorMsg,
        Diagnostic.log ("Неожиданный JSON от OpenAI: " ++ p.raw)]) := by
  simp [compare_testimonies, hb, hp, hf]

/-- Witness for C3: an object whose only values are a string and a number
yields the empty result and the error diagnostic. -/
theorem compare_testimonies_dict_no_list_witness :
    compare_testimonies
      (fun _ => ChatOutcome.ok
        ⟨"raw-object", Except.ok (Json.obj
          [("status", Json.str "ok"), ("count", Json.num 0)])⟩)
      "t1" "t2"
      = (some [],
         [Diagnostic.error notListErrorMsg,
          Diagnostic.log ("Неожиданный JSON от OpenAI: " ++ "raw-object")]) :=
  compare_testimonies_dict_no_list _ "t1" "t2"
    ⟨"raw-object", Except.ok (Json.obj [("status", Json.str "ok"), ("count", Json.num 0)])⟩
    [("status", Json.str "ok"), ("count", Json.num 0)] rfl rfl rfl

/-- C4: For every upstream payload that is not parseable as JSON,
`compare_testimonies` returns the empty list, emits the decode error and
warning, and logs the raw payload; the parse exception never reaches the
caller (the result is exactly this pair, not a propagated error). -/
theorem compare_testimonies_malformed (b : Backend) (t1 t2 : String)
    (p : Payload) (e : String)
    (hb : b (compareRequest t1 t2) = ChatOutcome.ok p)
    (hp : p.parse = Except.error e) :
    compare_testimonies b t1 t2 =
      (some [],
       [Diagnostic.error ("Ошибка декодирования JSON ответа от OpenAI: " ++ e),
        Diagnostic.warning "Модель не вернула валидный JSON. Противоречия не будут извлечены.",
        Diagnostic.log ("Невалидный JSON от OpenAI: " ++ p.raw)]) := by
  simp [compare_testimonies, hb, hp]

/-- Witness for C4 at spec scenario 3: the stub payload is the non-JSON
text `not json`. -/
theorem compare_testimonies_malformed_witness :
    compare_testimonies
      (fun _ => ChatOutcome.ok
        ⟨"not json", Except.error "Expecting value: line 1 column 1 (char 0)"⟩)
      "t1" "t2"
      = (some [],
         [Diagnostic.error ("Ошибка декодирования JSON ответа от OpenAI: " ++
            "Expecting value: line 1 column 1 (char 0)"),
          Diagnostic.warning "Модель не вернула валидный JSON. Противоречия не будут извлечены.",
          Diagnostic.log ("Невалидный JSON от OpenAI: " ++ "not json")]) :=
  compare_testimonies_malformed _ _ _ _ _ rfl rfl

/-- C5: `compare_testimonies` returns the distinguished unavailable result
`none` if and only if the remote call itself raised; and that result is
distinct from the empty list, so callers can tell nothing-found from
could-not-check. -/
theorem compare_testimonies_none_iff_upstream_failure (b : Backend) (t1 t2 : String) :
    ((compare_testimonies b t1 t2).1 = none ↔
      ∃ msg, b (compareRequest t1 t2) = ChatOutcome.raised msg)
    ∧ (none : Option (List Json)) ≠ some [] := by
  refine ⟨?_, by simp⟩
  cases hb : b (compareRequest t1 t2) with
  | raised msg =>
      simp [compare_testimonies, hb]
  | ok payload =>
      simp only [compare_testimonies, hb]
      constructor
      · intro h
        cases hp : payload.parse with
        | error e => simp [hp] at h
        | ok j =>
            cases j with
            | arr l => simp [hp] at h
            | obj kvs =>
                cases hf : firstListEntry kvs with
                | none => simp [hp, hf] at h
                | some kl => simp [hp, hf] at h
            | null => simp [hp] at h
            | bool x => simp [hp] at h
            | num n => simp [hp] at h
            | str s => simp [hp] at h
      · rintro ⟨msg, hmsg⟩
        simp [hb] at hmsg

/-- C6: `transcribe_audio` removes the temporary audio file on every
execution path: whenever the file exists beforehand, the file system after
the call is exactly the old one with the file removed, whatever the
transcription outcome; in particular the file no longer exists. -/
theorem transcribe_audio_deletes_file (fs : FS) (client : TranscribeBackend)
    (audio_file language : String)
    (h : fs.exists audio_file = true) :
    (transcribe_audio fs client audio_file language).2.2 = fs.remove audio_file
    ∧ ((transcribe_audio fs client audio_file language).2.2).exists audio_file = false := by
  have h1 : (transcribe_audio fs client audio_file language).2.2 = fs.remove audio_file := by
    simp [transcribe_audio, h]
  refine ⟨h1, ?_⟩
  rw [h1]
  simp [FS.remove, FS.exists, List.mem_filter]

/-- Witness for C6: a file system holding one temp file, a transcription
backend that raises; the file is gone afterwards. -/
theorem transcribe_audio_deletes_file_witness :
    (transcribe_audio ⟨["tmp_audio.mp3"]⟩ (fun _ _ => Except.error "network down")
        "tmp_audio.mp3" "ru").2.2 = FS.remove ⟨["tmp_audio.mp3"]⟩ "tmp_audio.mp3"
    ∧ ((transcribe_audio ⟨["tmp_audio.mp3"]⟩ (fun _ _ => Except.error "network down")
        "tmp_audio.mp3" "ru").2.2).exists "tmp_audio.mp3" = false :=
  transcribe_audio_deletes_file _ _ _ _ (by decide)

/-- C8: an invocation of `compare_testimonies` is deterministic and
stateless: running it twice with the same backend and the same input texts
(the second time from the state produced by the first) yields the same
ComparisonResult, and the invocation leaves the persistent store untouched. -/
theorem compare_testimonies_idempotent_stateless (s : AppState) (b : Backend)
    (t1 t2 : String) :
    (runCompare s b t1 t2).1 = (runCompare (runCompare s b t1 t2).2 b t1 t2).1
    ∧ (runCompare s b t1 t2).2.storage = s.storage :=
  ⟨rfl, rfl⟩

/-- C9: `compare_testimonies` performs no per-element schema validation:
a payload parsing as a JSON list is returned as-is even when some element
is not a 4-field contradiction object. -/
theorem compare_testimonies_no_element_validation (b : Backend) (t1 t2 : String)
    (p : Payload) (l : List Json)
    (hb : b (compareRequest t1 t2) = ChatOutcome.ok p)
    (hp : p.parse = Except.ok (Json.arr l))
    (_hbad : ∃ j ∈ l, isContradictionObj j = false) :
    compare_testimonies b t1 t2 = (some l, []) := by
  simp [compare_testimonies, hb, hp]

/-- Witness for C9: a list whose elements are a bare string and a number is
returned unchanged. -/
theorem compare_testimonies_no_element_validation_witness :
    compare_testimonies
      (fun _ => ChatOutcome.ok
        ⟨"stub", Except.ok (Json.arr [Json.str "не объект", Json.num 7])⟩)
      "t1" "t2"
      = (some [Json.str "не объект", Json.num 7], []) :=
  compare_testimonies_no_element_validation _ "t1" "t2"
    ⟨"stub", Except.ok (Json.arr [Json.str "не объект", Json.num 7])⟩
    [Json.str "не объект", Json.num 7] rfl rfl
    ⟨Json.str "не объект", List.Mem.head _, rfl⟩

/-- On a string-keyed list, `insertDesc` succeeds; the result is a
permutation of the element consed onto the list, stays string-keyed, and
preserves descending sortedness by key. -/
theorem insertDesc_ok (x : Json × PyKey) (hx : ∃ s, x.2 = PyKey.str s) :
    ∀ l : List (Json × PyKey), AllStr l →
    ∃ m, insertDesc x l = Except.ok m ∧ m.Perm (x :: l) ∧ AllStr m ∧
      (l.Pairwise (fun p q => keyStr q.2 ≤ keyStr p.2) →
       m.Pairwise (fun p q => keyStr q.2 ≤ keyStr p.2)) := by
  intro l
  induction l with
  | nil =>
      intro _
      refine ⟨[x], rfl, List.Perm.refl _, ?_, ?_⟩
      · intro p hp
        rcases List.mem_singleton.mp hp with rfl
        exact hx
      · intro _
        simp
  | cons y ys ih =>
      intro hl
      obtain ⟨sx, hsx⟩ := hx
      obtain ⟨sy, hsy⟩ := hl y (List.mem_cons_self _ _)
      have hys : AllStr ys := fun p hp => hl p (List.mem_cons_of_mem _ hp)
      by_cases hcmp : sy ≤ sx
      · refine ⟨x :: y :: ys, ?_, List.Perm.refl _, ?_, ?_⟩
        · simp [insertDesc, hsy, hsx, pyLe, hcmp]
        · intro p hp
          rcases List.mem_cons.mp hp with rfl | hp2
          · exact ⟨sx, hsx⟩
          · exact hl p hp2
        · intro hs
          refine List.Pairwise.cons ?_ hs
          intro q hq
          rcases List.mem_cons.mp hq with rfl | hq2
          · simp [hsx, hsy, keyStr, hcmp]
          · have h1 : keyStr q.2 ≤ keyStr y.2 :=
              (List.pairwise_cons.mp hs).1 q hq2
            rw [hsy] at h1
            rw [hsx]
            exact le_trans h1 hcmp
      · obtain ⟨m1, he1, hp1, ha1, hs1⟩ := ih hys
        refine ⟨y :: m1, ?_, ?_, ?_, ?_⟩
        · simp [insertDesc, hsy, hsx, pyLe, hcmp, he1]
        · exact (hp1.cons y).trans (List.Perm.swap x y ys)
        · intro p hp
          rcases List.mem_cons.mp hp with rfl | hp2
          · exact ⟨sy, hsy⟩
          · exact ha1 p hp2
        · intro hs
          obtain ⟨hy_rel, hys_sorted⟩ := List.pairwise_cons.mp hs
          refine List.Pairwise.cons ?_ (hs1 hys_sorted)
          intro q hq
          have hq2 : q ∈ x :: ys := hp1.mem_iff.mp hq
          rcases List.mem_cons.mp hq2 with rfl | hq3
          · rw [hsx, hsy]
            exact le_of_not_le hcmp
          · exact hy_rel q hq3

/-- On a string-keyed list, `sortDesc` succeeds with a string-keyed
permutation that is sorted descending by key. -/
theorem sortDesc_ok :
    ∀ l : List (Json × PyKey), AllStr l →
    ∃ m, sortDesc l = Except.ok m ∧ m.Perm l ∧ AllStr m ∧
      m.Pairwise (fun p q => keyStr q.2 ≤ keyStr p.2) := by
  intro l
  induction l with
  | nil =>
      intro _
      exact ⟨[], rfl, List.Perm.refl _, fun p hp => absurd hp (List.not_mem_nil p), List.Pairwise.nil⟩
  | cons x xs ih =>
      intro hl
      obtain ⟨m1, he1, hp1, ha1, hs1⟩ := ih (fun p hp => hl p (List.mem_cons_of_mem _ hp))
      obtain ⟨m, he, hp2, ha, hpres⟩ :=
        insertDesc_ok x (hl x (List.mem_cons_self _ _)) m1 ha1
      refine ⟨m, ?_, hp2.trans (hp1.cons x), ha, hpres hs1⟩
      simp [sortDesc, he1, he]

/-- On well-formed records the Python sort key is total and equals
`dateKeyStr`. -/
theorem recordDateKey_eq_of_wf (j : Json) (h : wellFormedRecord j = true) :
    recordDateKey j = Except.ok (PyKey.str (dateKeyStr j)) := by
  cases j with
  | obj kvs =>
      cases hl : lookupField "generatedDate" kvs with
      | none => simp [recordDateKey, dateKeyStr, hl]
      | some v => cases v <;> simp_all [recordDateKey, dateKeyStr, wellFormedRecord]
  | null => simp [wellFormedRecord] at h
  | bool b => simp [wellFormedRecord] at h
  | num n => simp [wellFormedRecord] at h
  | str s => simp [wellFormedRecord] at h
  | arr elems => simp [wellFormedRecord] at h

/-- On well-formed records, key computation succeeds with the
`dateKeyStr` keys. -/
theorem computeKeys_eq_of_wf :
    ∀ rs : List Json, (∀ j ∈ rs, wellFormedRecord j = true) →
    computeKeys rs = Except.ok (rs.map (fun j => (j, PyKey.str (dateKeyStr j)))) := by
  intro rs
  induction rs with
  | nil => intro _; rfl
  | cons j js ih =>
      intro h
      have hj := recordDateKey_eq_of_wf j (h j (List.mem_cons_self _ _))
      have hjs := ih (fun q hq => h q (List.mem_cons_of_mem _ hq))
      simp [computeKeys, hj, hjs]

/-- On well-formed records the embedded `sorted` call succeeds and returns
a permutation of the records sorted descending by `dateKeyStr`. -/
theorem pySorted_ok_of_wf (rs : List Json)
    (hwf : ∀ j ∈ rs, wellFormedRecord j = true) :
    ∃ l, pySortedByDateDesc rs = Except.ok l ∧ l.Perm rs ∧
      l.Pairwise (fun a b => dateKeyStr b ≤ dateKeyStr a) := by
  have hall : AllStr (rs.map (fun j => (j, PyKey.str (dateKeyStr j)))) := by
    intro p hp
    rcases List.mem_map.mp hp with ⟨j, _, rfl⟩
    exact ⟨dateKeyStr j, rfl⟩
  obtain ⟨m, hm, hperm, _, hsort⟩ := sortDesc_ok _ hall
  refine ⟨m.map Prod.fst, ?_, ?_, ?_⟩
  · simp [pySortedByDateDesc, computeKeys_eq_of_wf rs hwf, hm]
  · have h1 := hperm.map Prod.fst
    simpa [Function.comp_def] using h1
  · have hsnd : ∀ p ∈ m, p.2 = PyKey.str (dateKeyStr p.1) := by
      intro p hp
      have h2 : p ∈ rs.map (fun j => (j, PyKey.str (dateKeyStr j))) := hperm.mem_iff.mp hp
      rcases List.mem_map.mp h2 with ⟨j, _, rfl⟩
      rfl
    have h3 : m.Pairwise (fun p q => dateKeyStr q.1 ≤ dateKeyStr p.1) := by
      refine List.Pairwise.imp_of_mem ?_ hsort
      intro p q hp hq hr
      rw [hsnd p hp, hsnd q hq] at hr
      simpa [keyStr] using hr
    exact List.pairwise_map.mpr h3

/-- C7: on any module directory whose parseable records are well-formed
(JSON objects whose generatedDate field, when present, is a string — the
only shape this application writes), `load_history` returns exactly those
records sorted by generatedDate in descending, newest-first order; a record
lacking the date field is keyed by the empty string and therefore sorts
last. -/
theorem load_history_sorted_desc (files : List (String × Except String Json))
    (hwf : ∀ j ∈ goodRecords files, wellFormedRecord j = true) :
    ∃ l, (load_history (DirState.present files)).1 = Except.ok l
      ∧ l.Perm (goodRecords files)
      ∧ l.Pairwise (fun a b => dateKeyStr b ≤ dateKeyStr a)
      ∧ ∀ kvs, lookupField "generatedDate" kvs = none →
          dateKeyStr (Json.obj kvs) = "" := by
  obtain ⟨l, h1, h2, h3⟩ := pySorted_ok_of_wf (goodRecords files) hwf
  refine ⟨l, ?_, h2, h3, ?_⟩
  · simpa [load_history] using h1
  · intro kvs hk
    simp [dateKeyStr, hk]

/-- Witness for C7: a directory with two dated records out of order, one
undated record and one non-json file. -/
theorem load_history_sorted_desc_witness :
    ∃ l, (load_history (DirState.present
        [("a.json", Except.ok (Json.obj
            [("generatedDate", Json.str "2024-01-01"), ("id", Json.str "A")])),
         ("skip.txt", Except.ok (Json.str "ignored")),
         ("b.json", Except.ok (Json.obj [("generatedDate", Json.str "2025-03-05")])),
         ("c.json", Except.ok (Json.obj [("id", Json.str "C")]))])).1 = Except.ok l
      ∧ l.Perm (goodRecords
        [("a.json", Except.ok (Json.obj
            [("generatedDate", Json.str "2024-01-01"), ("id", Json.str "A")])),
         ("skip.txt", Except.ok (Json.str "ignored")),
         ("b.json", Except.ok (Json.obj [("generatedDate", Json.str "2025-03-05")])),
         ("c.json", Except.ok (Json.obj [("id", Json.str "C")]))])
      ∧ l.Pairwise (fun a b => dateKeyStr b ≤ dateKeyStr a)
      ∧ ∀ kvs, lookupField "generatedDate" kvs = none →
          dateKeyStr (Json.obj kvs) = "" :=
  load_history_sorted_desc _ (by decide)

/-- C10 counterexample: a directory holding one invalid-JSON file and one
file whose content is valid JSON but a list rather than an object. The
claim says the failing file is skipped and the remaining record is still
returned; instead the `sorted` key lambda raises `AttributeError` (it is
outside every `try` in `load_history`), so no record list is returned. -/
theorem load_history_raises_on_valid_nondict_record :
    (load_history (DirState.present
      [("broken.json", Except.error "Expecting value: line 1 column 1 (char 0)"),
       ("strange.json", Except.ok (Json.arr [Json.num 1]))])).1
    = Except.error "AttributeError: \x27list\x27 object has no attribute \x27get\x27" := rfl

/-- C10 (amended): provided every parseable record is a well-formed JSON
object (generatedDate a string when present), `load_history` never raises:
each failing file is skipped with one logged error, the records from the
remaining readable files are returned, and an absent directory yields the
empty list with no diagnostics. -/
theorem load_history_skips_failed_files (files : List (String × Except String Json))
    (hwf : ∀ j ∈ goodRecords files, wellFormedRecord j = true) :
    load_history DirState.absent = (Except.ok [], [])
    ∧ ∃ l, (load_history (DirState.present files)).1 = Except.ok l
        ∧ l.Perm (goodRecords files)
        ∧ (load_history (DirState.present files)).2 = errorLogs files := by
  refine ⟨rfl, ?_⟩
  obtain ⟨l, h1, h2, _⟩ := pySorted_ok_of_wf (goodRecords files) hwf
  exact ⟨l, by simpa [load_history] using h1, h2, rfl⟩

/-- Witness for the amended C10: one unreadable file next to one good
record. -/
theorem load_history_skips_failed_files_witness :
    load_history DirState.absent = (Except.ok [], [])
    ∧ ∃ l, (load_history (DirState.present
          [("broken.json", Except.error "Expecting value: line 1 column 1 (char 0)"),
           ("good.json", Except.ok (Json.obj [("generatedDate", Json.str "2025-01-01")]))])).1
          = Except.ok l
        ∧ l.Perm (goodRecords
          [("broken.json", Except.error "Expecting value: line 1 column 1 (char 0)"),
           ("good.json", Except.ok (Json.obj [("generatedDate", Json.str "2025-01-01")]))])
        ∧ (load_history (DirState.present
          [("broken.json", Except.error "Expecting value: line 1 column 1 (char 0)"),
           ("good.json", Except.ok (Json.obj [("generatedDate", Json.str "2025-01-01")]))])).2
          = errorLogs
          [("broken.json", Except.error "Expecting value: line 1 column 1 (char 0)"),
           ("good.json", Except.ok (Json.obj [("generatedDate", Json.str "2025-01-01")]))] :=
  load_history_skips_failed_files _ (by decide)

end Investig
